import Mathlib

/-!
Verification of the sts-python thumbnail service against its
natural-language specification.

The development shallowly embeds the Python sources:
* `src/sts/config.py` — configuration resolution (`before_validator`,
  `_parse_size`, `_get_buckets_map`, `BucketSettings`, `BucketsMap`);
* `src/sts/images/storage_client.py` — the S3 storage client
  (`get_file_stat`, `open_stream`, `load_file`, `put_file`), modelled over a
  snapshot of the object store as an association list;
* `src/sts/images/file_storage_scanner.py` — `FileStorageScannerImp.scan_file`;
* `src/sts/images/thumbnail_service.py` — `ThumbnailService`;
* `src/sts/images/buckets_service.py` — `BucketsService.create_buckets`;
* `src/sts/images/image_processor.py` — `resize_image` control flow, with the
  PIL codec steps as an oracle;
* `src/sts/stats/service.py` — `StatService.handle_request`.

Python `dict` values become association lists with first-match lookup and
in-place-overwrite insertion; Python `None` becomes `Option.none`; Python
exceptions become `Except.error` / a `raised` constructor; Python truthiness
of strings (`if s:`) becomes an explicit emptiness test.
-/

namespace STS

/-- Python dict.get: first matching key wins (keys are unique in a dict). -/
def dictGet {α : Type} : List (String × α) → String → Option α
  | [], _ => none
  | (k, v) :: rest, key => if k = key then some v else dictGet rest key

/-- Python dict assignment `d[key] = v`: overwrite in place, else append. -/
def dictInsert {α : Type} : List (String × α) → String → α → List (String × α)
  | [], key, v => [(key, v)]
  | (k, v0) :: rest, key, v =>
      if k = key then (key, v) :: rest else (k, v0) :: dictInsert rest key v

/-- ImageSize from config.py. Python ints are unbounded, hence `Int`. -/
structure ImageSize where
  w : Int
  h : Int
deriving DecidableEq, Repr

/-- ImageFormat from models.py (a StrEnum with members NONE, PNG, JPEG). -/
inductive ImageFormat where
  | NONE
  | PNG
  | JPEG
deriving DecidableEq, Repr

/-- Codec parameter dictionary passed through to PIL save (opaque payload). -/
abbrev FormatParams : Type := List (String × String)

/-- BucketSettings from config.py.

The fields `size`, `life_time_days`, `source_bucket` and `alias` are the
fields of the `BucketSettings` pydantic model in `src/sts/config.py`; the
`alias` field is rendered here as `alias_name` because `alias` is a Lean
command keyword.

Modelled from the spec: the fields `format` and `format_args` (the bucket's
optional target image format and codec parameters, spec §4.5 "the bucket's
configured target format/codec params (when present)") are read by
`ThumbnailService._create_thumbnail_and_upload` but are absent from the
revision of `BucketSettings` under `src/sts/config.py`; they are added here
with "absent" defaults, faithful to the spec's "when present". -/
structure BucketSettings where
  size : ImageSize
  life_time_days : Nat := 30
  source_bucket : String
  alias_name : Option String := none
  format : ImageFormat := ImageFormat.NONE
  format_args : Option FormatParams := none
deriving DecidableEq, Repr

/-- BucketsMap from config.py. `buckets` and `alias_map` are Python dicts;
`all_source_buckets` is a Python set, modelled as a list with membership as
the only meaningful operation. -/
structure BucketsMap where
  source_bucket : String
  buckets : List (String × BucketSettings)
  all_source_buckets : List String
  alias_map : List (String × String)
deriving DecidableEq, Repr

/-- StorageFileItem from storage_client.py. -/
structure StorageFileItem where
  bucket : String
  file_name : String
  size : Nat
  content_type : String
  etag : String
  parent_etag : Option String := none
deriving DecidableEq, Repr

/-- One object stored in the S3 store: stat metadata plus content bytes.
`parent_etag` models the user metadata entry under key
`x-amz-meta-parent-etag` (`none` = no such metadata key on the object). -/
structure StorageObject where
  size : Nat
  content_type : String
  etag : String
  parent_etag : Option String
  data : List Nat
deriving DecidableEq, Repr

/-- A snapshot of the object store: (bucket, file name, object) triples. -/
abbrev Store : Type := List (String × String × StorageObject)

/-- Object lookup in a store snapshot (first match wins). -/
def lookupStore : Store → String → String → Option StorageObject
  | [], _, _ => none
  | (b, f, o) :: rest, bucket, file_name =>
      if b = bucket ∧ f = file_name then some o else lookupStore rest bucket file_name

/-- S3StorageClient.get_file_stat: stat an object, absent (S3Error) → none. -/
def get_file_stat (store : Store) (bucket file_name : String) : Option StorageFileItem :=
  (lookupStore store bucket file_name).map fun o =>
    { bucket := bucket, file_name := file_name, size := o.size,
      content_type := o.content_type, etag := o.etag, parent_etag := o.parent_etag }

/-- The header-derived fields and lazy body of a `_StorageResponse`:
`content_length` is the raw `content-length` header string, `etag` is the
`etag` header with surrounding quotes stripped. -/
structure StorageResponseData where
  content_length : String
  content_type : String
  etag : String
  body : List Nat
deriving DecidableEq, Repr

/-- S3StorageClient.open_stream: open the object's byte stream; the response
headers reflect the stored object. Returns none when the object is absent. -/
def open_stream (store : Store) (bucket file_name : String) : Option StorageResponseData :=
  (lookupStore store bucket file_name).map fun o =>
    { content_length := toString o.size, content_type := o.content_type,
      etag := o.etag, body := o.data }

/-- S3StorageClient.load_file: eager download into memory; absent → none. -/
def load_file (store : Store) (bucket file_name : String) : Option (List Nat) :=
  (lookupStore store bucket file_name).map (·.data)

/-- S3StorageClient.put_file: upload `content`, with `content_length` read
from the buffer size; the `x-amz-meta-parent-etag` metadata entry is written
only when `parent_etag` is truthy (a non-empty string).  The backend-assigned
etag of the new object is `etagOf content` (S3 computes it from the bytes).
Returns the `StorageFileItem` built by the client and the updated store. -/
def put_file (etagOf : List Nat → String) (store : Store) (bucket file_name : String)
    (content : List Nat) (content_type : String) (parent_etag : Option String) :
    StorageFileItem × Store :=
  let content_length := content.length
  let metadata : Option String :=
    match parent_etag with
    | some p => if p = "" then none else some p
    | none => none
  let etag := etagOf content
  let obj : StorageObject :=
    { size := content_length, content_type := content_type, etag := etag,
      parent_etag := metadata, data := content }
  ({ bucket := bucket, file_name := file_name, size := content_length,
     content_type := content_type, etag := etag, parent_etag := parent_etag },
   (bucket, file_name, obj) :: store)

/-- ScanStatus from file_storage_scanner.py. -/
inductive ScanStatus where
  | BUCKET_NOT_FOUND
  | SOURCE_FILE_NOT_FOUND
  | USE_SOURCE_FILE
  | FILE_FOUND
  | CREATE_NEW
deriving DecidableEq, Repr

/-- ScanResult from file_storage_scanner.py. -/
structure ScanResult where
  status : ScanStatus := ScanStatus.BUCKET_NOT_FOUND
  source_file_stat : Option StorageFileItem := none
  file_stat : Option StorageFileItem := none
  bucket_settings : Option BucketSettings := none
deriving DecidableEq, Repr

/-- FileStorageScannerImp._get_bucket_settings.  When `bucket` equals the
default source bucket the Python code indexes `buckets[bucket]` directly,
which raises KeyError if the key is absent; otherwise it uses
`buckets.get(bucket, None)`. -/
def _get_bucket_settings (m : BucketsMap) (bucket : String) :
    Except String (Option BucketSettings) :=
  if bucket = m.source_bucket then
    match dictGet m.buckets bucket with
    | some s => Except.ok (some s)
    | none => Except.error "KeyError"
  else
    Except.ok (dictGet m.buckets bucket)

/-- FileStorageScannerImp.scan_file. -/
def scan_file (m : BucketsMap) (store : Store) (bucket file_name : String) :
    Except String ScanResult :=
  match _get_bucket_settings m bucket with
  | Except.error e => Except.error e
  | Except.ok none => Except.ok { status := ScanStatus.BUCKET_NOT_FOUND }
  | Except.ok (some bucket_settings) =>
    match get_file_stat store bucket_settings.source_bucket file_name with
    | none => Except.ok { status := ScanStatus.SOURCE_FILE_NOT_FOUND }
    | some source_file_stat =>
      if bucket = bucket_settings.source_bucket then
        Except.ok { status := ScanStatus.USE_SOURCE_FILE,
                    source_file_stat := some source_file_stat }
      else
        match get_file_stat store bucket file_name with
        | some thumbnail_stat =>
          if thumbnail_stat.parent_etag = some source_file_stat.etag then
            Except.ok { status := ScanStatus.FILE_FOUND,
                        source_file_stat := some source_file_stat,
                        file_stat := some thumbnail_stat }
          else
            Except.ok { status := ScanStatus.CREATE_NEW,
                        source_file_stat := some source_file_stat,
                        bucket_settings := some bucket_settings }
        | none =>
          Except.ok { status := ScanStatus.CREATE_NEW,
                      source_file_stat := some source_file_stat,
                      bucket_settings := some bucket_settings }

/-- ImageData from images/models.py: resize result with either content bytes
or a captured error (the error payload abstracts the Python exception). -/
structure ImageData where
  content_type : String
  error : Option String := none
  data : Option (List Nat) := none
deriving DecidableEq, Repr

/-- HTTP responses produced by ThumbnailService, shape-level: the concrete
constructors capture the status code, the `Etag` and `Content-Length`
headers (`Content-Length` is a string: the raw header value), the media
type, and the streamed body. -/
inductive Response where
  | notFoundJson
  | notModified (etagHeader : String)
  | okStream (etagHeader : String) (contentLengthHeader : String)
      (media_type : String) (body : List Nat)
deriving DecidableEq, Repr

/-- External collaborators of ThumbnailService: the image processor result
for given bytes and settings, and the store's etag assignment on upload. -/
structure ThumbEnv where
  resize : List Nat → Int → Int → ImageFormat → Option FormatParams → ImageData
  etagOf : List Nat → String

/-- ThumbnailService._get_file_response.  The Python guard is
`if etag and file_storage_item.etag == etag:` — the client etag must be
truthy (present and non-empty) and equal to the stored etag. -/
def _get_file_response (store : Store) (file_storage_item : StorageFileItem)
    (etag : Option String) : Response :=
  let stream : Response :=
    match open_stream store file_storage_item.bucket file_storage_item.file_name with
    | none => Response.notFoundJson
    | some object_stream =>
        Response.okStream object_stream.etag object_stream.content_length
          object_stream.content_type object_stream.body
  match etag with
  | some e => if e ≠ "" ∧ file_storage_item.etag = e then Response.notModified e else stream
  | none => stream

/-- ThumbnailService._create_thumbnail_and_upload.  Returns the response and
the store after the request (unchanged except on the successful put). -/
def _create_thumbnail_and_upload (env : ThumbEnv) (store : Store)
    (source_file_stat : StorageFileItem) (bucket_settings : BucketSettings)
    (bucket : String) : Response × Store :=
  match load_file store source_file_stat.bucket source_file_stat.file_name with
  | none => (Response.notFoundJson, store)
  | some image_data =>
    let thumbnail := env.resize image_data bucket_settings.size.w bucket_settings.size.h
        bucket_settings.format bucket_settings.format_args
    match thumbnail.error, thumbnail.data with
    | some _, _ => (Response.notFoundJson, store)
    | none, none => (Response.notFoundJson, store)
    | none, some tdata =>
      let put := put_file env.etagOf store bucket source_file_stat.file_name tdata
          thumbnail.content_type (some source_file_stat.etag)
      (Response.okStream put.1.etag (toString put.1.size) thumbnail.content_type tdata,
       put.2)

/-- ThumbnailService.get_thumbnail.  The `Except.error` cases model the
uncaught Python exceptions (KeyError from the scanner's direct dict access,
AssertionError from the `assert scan_result...` statements). -/
def get_thumbnail (env : ThumbEnv) (m : BucketsMap) (store : Store)
    (bucket file_name : String) (etag : Option String) :
    Except String (Response × Store) :=
  match scan_file m store bucket file_name with
  | Except.error e => Except.error e
  | Except.ok scan_result =>
    match scan_result.status with
    | ScanStatus.BUCKET_NOT_FOUND => Except.ok (Response.notFoundJson, store)
    | ScanStatus.SOURCE_FILE_NOT_FOUND => Except.ok (Response.notFoundJson, store)
    | ScanStatus.USE_SOURCE_FILE =>
      match scan_result.source_file_stat with
      | some s => Except.ok (_get_file_response store s etag, store)
      | none => Except.error "AssertionError"
    | ScanStatus.FILE_FOUND =>
      match scan_result.file_stat with
      | some fs => Except.ok (_get_file_response store fs etag, store)
      | none => Except.error "AssertionError"
    | ScanStatus.CREATE_NEW =>
      match scan_result.source_file_stat, scan_result.bucket_settings with
      | some s, some bs => Except.ok (_create_thumbnail_and_upload env store s bs bucket)
      | _, _ => Except.error "AssertionError"

/-- BucketStatus from models.py.  The Python member `exists` is rendered
`already_exists` (`exists` is a Lean keyword). -/
inductive BucketStatus where
  | created
  | already_exists
  | error
deriving DecidableEq, Repr

/-- BucketsInfo from models.py. -/
structure BucketsInfo where
  thumbnail_buckets : List (String × BucketStatus)
  source_buckets : List (String × BucketStatus)
  error : Bool
deriving DecidableEq, Repr

/-- A runtime Python value as far as the `==` in
`BucketsService._check_if_result_has_errors` is concerned: a string, a
BucketStatus enum member, or a tuple. -/
inductive PyVal where
  | str (s : String)
  | status (b : BucketStatus)
  | pair (a b : PyVal)
deriving DecidableEq, Repr

/-- Python `==` on such values: equal only for structurally matching kinds;
comparing a tuple with an enum member yields False (neither type's `__eq__`
recognises the other). -/
def pyEq : PyVal → PyVal → Bool
  | PyVal.str a, PyVal.str b => a == b
  | PyVal.status a, PyVal.status b => a == b
  | PyVal.pair a c, PyVal.pair b d => pyEq a b && pyEq c d
  | _, _ => false

/-- BucketsService._check_if_result_has_errors.  The Python code iterates
`result.source_buckets.items()` and `result.thumbnail_buckets.items()`, so
each `t` is a `(name, status)` tuple, compared with `BucketStatus.error`. -/
def _check_if_result_has_errors (result : BucketsInfo) : Bool :=
  let source_buckets_have_errors :=
    result.source_buckets.any fun t =>
      pyEq (PyVal.pair (PyVal.str t.1) (PyVal.status t.2)) (PyVal.status BucketStatus.error)
  let thumbnail_buckets_have_errors :=
    result.thumbnail_buckets.any fun t =>
      pyEq (PyVal.pair (PyVal.str t.1) (PyVal.status t.2)) (PyVal.status BucketStatus.error)
  source_buckets_have_errors || thumbnail_buckets_have_errors

/-- The slice of AppSettings read by BucketsService.create_buckets. -/
structure ProvisionSettings where
  buckets : List (String × BucketSettings)
  source_bucket : Option String
deriving DecidableEq, Repr

/-- BucketsService.create_buckets, with `createBucket name life_time_days`
the outcome of `_create_bucket` (created / already exists / error). -/
def create_buckets (createBucket : String → Nat → BucketStatus)
    (s : ProvisionSettings) : BucketsInfo :=
  if s.buckets.length = 0 then
    { thumbnail_buckets := [], source_buckets := [], error := true }
  else
    let default_source_bucket := s.source_bucket
    let init_src : List (String × BucketStatus) :=
      match default_source_bucket with
      | some d => if d = "" then [] else [(d, createBucket d 0)]
      | none => []
    let step := fun (acc : List (String × BucketStatus) × List (String × BucketStatus))
        (p : String × BucketSettings) =>
      let thumbs := dictInsert acc.2 p.1 (createBucket p.1 p.2.life_time_days)
      let sb := p.2.source_bucket
      let src :=
        if sb ≠ "" ∧ some sb ≠ default_source_bucket then
          dictInsert acc.1 sb (createBucket sb 0)
        else acc.1
      (src, thumbs)
    let folded := s.buckets.foldl step (init_src, [])
    let info : BucketsInfo :=
      { thumbnail_buckets := folded.2, source_buckets := folded.1, error := true }
    { info with error := _check_if_result_has_errors info }

/-- Python `str(x)` applied to an optional string: `str(None)` is the
literal string "None". -/
def pyStr : Option String → String
  | none => "None"
  | some s => s

/-- Splitting a character list on a separator character (the semantics of
Python `str.split(sep)` for a one-character separator). -/
def splitOnCharAux (c : Char) : List Char → List (List Char)
  | [] => [[]]
  | a :: rest =>
    match splitOnCharAux c rest with
    | [] => if a = c then [[], []] else [[a]]
    | g :: gs => if a = c then [] :: g :: gs else (a :: g) :: gs

/-- Accumulating decimal-digit parse of a character list. -/
def parseDigitsAux : List Char → Nat → Option Nat
  | [], acc => some acc
  | c :: rest, acc =>
      if c.isDigit then parseDigitsAux rest (acc * 10 + (c.toNat - 48)) else none

/-- Python `int(s)` on a decimal numeral with optional leading minus sign
(the shapes that occur in size strings). -/
def pyInt (s : String) : Option Int :=
  match s.data with
  | [] => none
  | '-' :: rest =>
      match rest with
      | [] => none
      | _ => (parseDigitsAux rest 0).map fun n => -(n : Int)
  | cs => (parseDigitsAux cs 0).map fun n => (n : Int)

/-- The `_parse_size` helper from config.py: splits on `x`, drops empty
fragments, parses decimal integers with Python `int`, and succeeds only
when exactly two parts remain. -/
def _parse_size (source : String) : Except String ImageSize :=
  let parts := (splitOnCharAux 'x' source.data).map String.mk
  let str_parts := (parts.filter (fun p => p ≠ "")).mapM pyInt
  match str_parts with
  | some [w, h] => Except.ok { w := w, h := h }
  | _ => Except.error ("Couldnt parse source string " ++ source ++ " into ImageSize")

/-- A raw (pre-validation) bucket entry as seen by
`AppSettings.before_validator`: an optional `source_bucket` and optional
string-form `size` (`none` = key absent from the raw dict). -/
structure RawBucket where
  source_bucket : Option String := none
  size : Option String := none
  life_time_days : Nat := 30
  alias_name : Option String := none
deriving DecidableEq, Repr

/-- The raw configuration dict fields that `before_validator` reads. -/
structure RawConfig where
  source_bucket : Option String := none
  size : Option String := none
  buckets : List (String × RawBucket) := []
deriving DecidableEq, Repr

/-- The validated configuration produced by `before_validator` (the slice of
AppSettings the buckets map derivation reads). -/
structure ResolvedConfig where
  source_bucket : Option String
  size : Option ImageSize
  buckets : List (String × BucketSettings)
deriving DecidableEq, Repr

/-- AppSettings.before_validator, the bucket-resolution part.  Note the
Python line `source_bucket = str(raw_dict.get('source_bucket', None))`:
when the key is absent the fallback value becomes the literal string
"None", which is truthy. -/
def before_validator (raw : RawConfig) : Except String ResolvedConfig := do
  let source_bucket := pyStr raw.source_bucket
  let default_size : Option ImageSize ←
    match raw.size with
    | some s => (_parse_size s).map some
    | none => pure none
  let buckets ← raw.buckets.mapM fun kb => do
    let key := kb.1
    let b := kb.2
    let sb := b.source_bucket.getD source_bucket
    if sb = "" then
      throw ("For bucket " ++ key ++ " source_bucket was not set, check configuration or set root source_bucket as fallback value.")
    let bucket_size : Option ImageSize ←
      match b.size with
      | some s => (_parse_size s).map some
      | none => pure default_size
    match bucket_size with
    | none =>
      throw ("For bucket " ++ key ++ " size was not set, check configuration or set root size as fallback value.")
    | some sz =>
      pure (key, ({ source_bucket := sb, size := sz,
                    life_time_days := b.life_time_days,
                    alias_name := b.alias_name } : BucketSettings))
  pure { source_bucket := raw.source_bucket, size := default_size, buckets := buckets }

/-- The slice of a validated AppSettings read by `_get_buckets_map`. -/
structure AppSettingsSlice where
  buckets : List (String × BucketSettings)
  source_bucket : Option String
  size : ImageSize
deriving DecidableEq, Repr

/-- The `settings.source_bucket or source_buckets[0]` expression from
`_get_buckets_map`: the top-level source bucket when truthy, else the first
per-bucket source value; `none` models the IndexError on an empty list. -/
def _buckets_map_base (settings : AppSettingsSlice) : Option String :=
  match settings.source_bucket with
  | some s =>
      if s = "" then (settings.buckets.map (fun p => p.2.source_bucket)).head?
      else some s
  | none => (settings.buckets.map (fun p => p.2.source_bucket)).head?

/-- The `_get_buckets_map` derivation from config.py.  Returns `none` for
the IndexError raised by `source_buckets[0]` when no default exists.  The
comprehension's `if s.source_bucket is not None` filter is vacuous because
`BucketSettings.source_bucket` is a required string field. -/
def _get_buckets_map (settings : AppSettingsSlice) : Option BucketsMap :=
  let source_buckets := settings.buckets.map (fun p => p.2.source_bucket)
  let alias_map := settings.buckets.foldl
    (fun am p => match p.2.alias_name with
      | some a => dictInsert am a p.1
      | none => am) []
  let buckets_dict := settings.buckets.foldl (fun bd p => dictInsert bd p.1 p.2) []
  match _buckets_map_base settings with
  | none => none
  | some base_source_bucket =>
    let source_bucket_cfg : BucketSettings :=
      { source_bucket := base_source_bucket, size := settings.size }
    let buckets_dict := dictInsert buckets_dict base_source_bucket source_bucket_cfg
    let source_buckets :=
      match settings.source_bucket with
      | some s => if s = "" then source_buckets ++ [base_source_bucket] else source_buckets
      | none => source_buckets ++ [base_source_bucket]
    some { alias_map := alias_map, buckets := buckets_dict,
           source_bucket := base_source_bucket,
           all_source_buckets := source_buckets }

/-- A persisted request_stats row (stats/models.py).  `update_dt` is an
abstract timestamp. -/
structure RequestStat where
  path : String
  hits : Nat
  update_dt : Nat
  errors : Nat := 0
deriving DecidableEq, Repr

/-- StatService._add_hit: select the unique row for `path`
(`one_or_none`, which raises when several rows match), increment its hit
counter and stamp it, or insert a fresh row with one hit. -/
def _add_hit (table : List RequestStat) (path : String) (now : Nat) :
    Except String (List RequestStat) :=
  match table.filter (fun r => r.path = path) with
  | [] => Except.ok (table ++ [{ path := path, hits := 1, update_dt := now }])
  | [_] => Except.ok (table.map fun r =>
      if r.path = path then { r with hits := r.hits + 1, update_dt := now } else r)
  | _ => Except.error "MultipleResultsFound"

/-- StatService._invalidate_hits: delete every row keyed by `path`. -/
def _invalidate_hits (table : List RequestStat) (path : String) : List RequestStat :=
  table.filter (fun r => ¬ r.path = path)

/-- StatService.handle_request. -/
def handle_request (table : List RequestStat) (path : String)
    (response_code : Nat) (now : Nat) : Except String (List RequestStat) :=
  if response_code = 404 then
    Except.ok (_invalidate_hits table path)
  else if response_code = 304 ∨ response_code = 200 then
    _add_hit table path now
  else
    Except.ok table

/-- Result of running a Python function: a returned value, or an exception
that escaped to the caller. -/
inductive PyResult (α : Type) where
  | ok (value : α)
  | raised (exc : String)
deriving DecidableEq, Repr

/-- The PIL oracle behind `resize_image`: `openImage data` is the outcome of
`Image.open(data)` followed by `im.get_format_mimetype()` (ok: the source's
native MIME; error: the exception raised, e.g. UnidentifiedImageError for an
unrecognised format); `processImage data mime fmt params` is the remainder
of the `with` body (thumbnail scaling, optional mode conversion, save),
yielding the final binding of `mime_type` together with either the saved
bytes or the exception raised. -/
structure PILEnv where
  openImage : List Nat → Except String String
  processImage : List Nat → String → ImageFormat → Option FormatParams →
    String × Except String (List Nat)

/-- The `resize_image` function from image_processor.py, control flow only.
Inside `try`, `mime_type` is first assigned after `Image.open` succeeds; the
`except` handler returns `ImageData(content_type=mime_type, ...)`, so when
`Image.open` itself raises, the handler reads a local that was never bound
and raises UnboundLocalError to the caller. -/
def resize_image (env : PILEnv) (data : List Nat) (width height : Int)
    (image_format : ImageFormat) (params : Option FormatParams) :
    PyResult ImageData :=
  if width ≤ 0 then PyResult.raised "AssertionError"
  else if height ≤ 0 then PyResult.raised "AssertionError"
  else
    match env.openImage data with
    | Except.error _ => PyResult.raised "UnboundLocalError"
    | Except.ok mime0 =>
      match env.processImage data mime0 image_format params with
      | (mime_type, Except.ok result) =>
          PyResult.ok { content_type := mime_type, error := none, data := some result }
      | (mime_type, Except.error e) =>
          PyResult.ok { content_type := mime_type, error := some e, data := none }

/-! ## Helper lemmas -/

/-- Looking a key up right after overwriting it yields the new value. -/
theorem dictGet_dictInsert {α : Type} (l : List (String × α)) (k : String) (v : α) :
    dictGet (dictInsert l k v) k = some v := by
  induction l with
  | nil => simp [dictInsert, dictGet]
  | cons p rest ih =>
    by_cases hk : p.1 = k
    · simp [dictInsert, hk, dictGet]
    · simp [dictInsert, hk, dictGet, ih]

/-- Each etag recorded in a store snapshot is non-empty. -/
def storeEtagsNonEmpty (s : Store) : Bool :=
  s.all fun e => e.2.2.etag ≠ ""

/-- In a store whose etags are all non-empty, every successful lookup
returns an object with a non-empty etag. -/
theorem lookupStore_etag_ne (s : Store) (hs : storeEtagsNonEmpty s = true)
    (b f : String) (o : StorageObject) (h : lookupStore s b f = some o) :
    o.etag ≠ "" := by
  induction s with
  | nil => simp [lookupStore] at h
  | cons e rest ih =>
    obtain ⟨b0, f0, o0⟩ := e
    simp only [storeEtagsNonEmpty, List.all_cons, Bool.and_eq_true] at hs
    simp only [lookupStore] at h
    split at h
    · cases h
      simpa using hs.1
    · exact ih (by simpa [storeEtagsNonEmpty] using hs.2) h

/-! ## C5 — buckets provisioner error flag -/

/-- Claim C5: the claim states that `BucketsInfo.error` is true iff some
recorded per-bucket status is `error`, and in particular false when no
buckets are configured.  The code violates both directions: with zero
configured buckets `create_buckets` early-returns the initial value
`error := true` with no recorded statuses, and with a configured bucket
whose creation fails it records `error` statuses yet reports
`error := false`, because `_check_if_result_has_errors` compares the
`(name, status)` tuples produced by `.items()` with the enum member
`BucketStatus.error`, a comparison that is always false. -/
theorem create_buckets_error_flag_diverges :
    create_buckets (fun _ _ => BucketStatus.created)
        { buckets := [], source_bucket := some "images" } =
      { thumbnail_buckets := [], source_buckets := [], error := true } ∧
    create_buckets (fun _ _ => BucketStatus.error)
        { buckets := [("thumb", { size := { w := 100, h := 100 }, source_bucket := "images" })],
          source_bucket := some "images" } =
      { thumbnail_buckets := [("thumb", BucketStatus.error)],
        source_buckets := [("images", BucketStatus.error)], error := false } :=
  ⟨rfl, rfl⟩

/-! ## C6 — missing source_bucket must abort configuration loading -/

/-- Claim C6: the claim states that configuration loading fails whenever a
configured bucket has no `source_bucket` and the top-level `source_bucket`
is unset.  The code accepts such input: `str(raw_dict.get('source_bucket',
None))` turns the absent value into the truthy literal string "None", so the
`source_bucket was not set` ValueError is never reached and validation
produces a settings value whose bucket has `source_bucket = "None"`. -/
theorem before_validator_accepts_missing_source_bucket :
    before_validator
        { source_bucket := none, size := none,
          buckets := [("thumbs", { size := some "100x100" })] } =
      Except.ok
        { source_bucket := none, size := none,
          buckets := [("thumbs",
            { source_bucket := "None", size := { w := 100, h := 100 } })] } :=
  rfl

/-! ## C7 — resize_image must capture all failures -/

/-- Claim C7: the claim states that `resize_image` never raises to its
caller and captures every failure, including an unrecognised source image
format, in `ImageData.error`.  In the code, when `Image.open` raises (as it
does for an unrecognised format), the `except` handler evaluates
`mime_type`, a local that is only assigned after a successful open, so the
handler itself raises UnboundLocalError to the caller. -/
theorem resize_image_raises_on_unrecognized_format :
    resize_image
        { openImage := fun _ => Except.error "UnidentifiedImageError",
          processImage := fun _ m _ _ => (m, Except.ok []) }
        [0, 1] 100 100 ImageFormat.NONE none =
      PyResult.raised "UnboundLocalError" :=
  rfl

/-! ## C8 — the default source bucket and all_source_buckets -/

/-- Claim C8: the claim states that the derived `BucketsMap` always has its
default `source_bucket` as a member of `all_source_buckets`.  In the code,
`all_source_buckets` is the set of per-bucket `source_bucket` values, and
the default is appended only when the top-level `source_bucket` is falsy —
in which case the default was taken from that very list and is already
present — so when the top-level `source_bucket` is set and no configured
bucket references it, the default is missing from `all_source_buckets`. -/
theorem get_buckets_map_drops_default_source :
    _get_buckets_map
        { buckets := [], source_bucket := some "images",
          size := { w := 200, h := 200 } } =
      some { source_bucket := "images",
             buckets := [("images",
               { source_bucket := "images", size := { w := 200, h := 200 } })],
             all_source_buckets := [], alias_map := [] } ∧
    "images" ∉ ([] : List String) :=
  ⟨rfl, by simp⟩

/-! ## C2 — conditional serving of an existing object -/

/-- The response contract of serving an existing object, as amended: a 304
with the etag header requires a non-empty `If-None-Match` equal to the
stored etag; otherwise the object's byte stream is served — 404 when the
object cannot be opened from the store, else 200 with the Etag header, the
Content-Length header equal to the object's numeric size, and the media
type equal to the stored content type. -/
def serve_existing_contract (store : Store) (item : StorageFileItem)
    (etag : Option String) : Response :=
  let serve : Response :=
    match lookupStore store item.bucket item.file_name with
    | none => Response.notFoundJson
    | some o => Response.okStream o.etag (toString o.size) o.content_type o.data
  match etag with
  | some e => if e ≠ "" ∧ e = item.etag then Response.notModified e else serve
  | none => serve

/-- Claim C2 (corrected): the original claim promises a 304 whenever the
client's `If-None-Match` equals the stored etag, but the Python guard
`if etag and ...` additionally requires the client etag to be non-empty;
with an empty stored etag (which `get_file_stat` produces when the backend
reports none) and an empty `If-None-Match`, the two are equal yet the code
streams the object instead of returning 304. -/
theorem get_file_response_empty_etag_counterexample :
    _get_file_response
        [("b", "f", { size := 1, content_type := "image/png", etag := "",
                      parent_etag := none, data := [7] })]
        { bucket := "b", file_name := "f", size := 1,
          content_type := "image/png", etag := "" } (some "") =
      Response.okStream "" "1" "image/png" [7] ∧
    _get_file_response
        [("b", "f", { size := 1, content_type := "image/png", etag := "",
                      parent_etag := none, data := [7] })]
        { bucket := "b", file_name := "f", size := 1,
          content_type := "image/png", etag := "" } (some "") ≠
      Response.notModified "" :=
  ⟨rfl, by decide⟩

/-- Claim C2 (amended): for every store snapshot, stored file item and
optional client etag, `_get_file_response` returns 304 with the etag header
exactly when the client's `If-None-Match` is non-empty and equal to the
stored etag, and otherwise 404 when the byte stream cannot be opened, else
200 with Etag, Content-Length equal to the object's numeric size, and media
type equal to the stored content type. -/
theorem get_file_response_follows_contract (store : Store)
    (item : StorageFileItem) (etag : Option String) :
    _get_file_response store item etag = serve_existing_contract store item etag := by
  cases etag with
  | none =>
    unfold _get_file_response serve_existing_contract open_stream
    cases lookupStore store item.bucket item.file_name <;> rfl
  | some e =>
    by_cases he : e ≠ "" ∧ item.etag = e
    · have he' : e ≠ "" ∧ e = item.etag := ⟨he.1, he.2.symm⟩
      simp only [_get_file_response, serve_existing_contract, open_stream, if_pos he, if_pos he']
    · have he' : ¬ (e ≠ "" ∧ e = item.etag) := fun hc => he ⟨hc.1, hc.2.symm⟩
      simp only [_get_file_response, serve_existing_contract, open_stream, if_neg he, if_neg he']
      cases lookupStore store item.bucket item.file_name <;> rfl

/-! ## C9 — request statistics recorder -/

/-- The table transformation stated by the claim: on 404 delete every row
keyed by the exact path; on 200 or 304 increment the existing row's hit
count and stamp it, or insert a fresh row with one hit; otherwise leave the
table unchanged. -/
def handle_request_contract (table : List RequestStat) (path : String)
    (response_code : Nat) (now : Nat) : List RequestStat :=
  if response_code = 404 then
    table.filter fun r => ¬ r.path = path
  else if response_code = 200 ∨ response_code = 304 then
    if table.any (fun r => r.path = path) then
      table.map fun r =>
        if r.path = path then { r with hits := r.hits + 1, update_dt := now } else r
    else
      table ++ [{ path := path, hits := 1, update_dt := now }]
  else
    table

/-- Claim C9: on a table whose path uniqueness invariant holds (at most one
row per path, as enforced by the schema), `handle_request` performs exactly
the deletion, upsert, or no-op that the claim describes. -/
theorem handle_request_follows_contract (table : List RequestStat)
    (path : String) (response_code now : Nat)
    (h : (table.filter fun r => r.path = path).length ≤ 1) :
    handle_request table path response_code now =
      Except.ok (handle_request_contract table path response_code now) := by
  unfold handle_request handle_request_contract _invalidate_hits _add_hit
  by_cases h404 : response_code = 404
  · simp [h404]
  · by_cases hok : response_code = 304 ∨ response_code = 200
    · have hok' : response_code = 200 ∨ response_code = 304 := hok.symm
      rw [if_neg h404, if_pos hok, if_neg h404, if_pos hok']
      cases hfil : table.filter fun r => r.path = path with
      | nil =>
        have hany : (table.any fun r => r.path = path) = false := by
          rw [List.any_eq_false]
          intro r hr
          simpa using List.filter_eq_nil_iff.mp hfil r hr
        rw [hany]
        simp
      | cons x xs =>
        cases xs with
        | nil =>
          have hx : x ∈ table.filter fun r => r.path = path := by
            rw [hfil]
            exact List.mem_singleton_self x
          have hany : (table.any fun r => r.path = path) = true := by
            rw [List.any_eq_true]
            refine ⟨x, List.mem_of_mem_filter hx, ?_⟩
            simpa using List.of_mem_filter hx
          rw [hany]
          simp
        | cons y ys =>
          exfalso
          rw [hfil] at h
          simp at h
    · have hok' : ¬ (response_code = 200 ∨ response_code = 304) := fun hc => hok hc.symm
      rw [if_neg h404, if_neg hok, if_neg h404, if_neg hok']

/-- Witness for C9: a concrete upsert on a table already holding the path. -/
theorem handle_request_follows_contract_witness :
    (([⟨"/b/a.png", 3, 5, 0⟩] : List RequestStat).filter
        fun r => r.path = "/b/a.png").length ≤ 1 ∧
    handle_request [⟨"/b/a.png", 3, 5, 0⟩] "/b/a.png" 200 9 =
      Except.ok (handle_request_contract [⟨"/b/a.png", 3, 5, 0⟩] "/b/a.png" 200 9) :=
  ⟨by decide, handle_request_follows_contract [⟨"/b/a.png", 3, 5, 0⟩] "/b/a.png" 200 9 (by decide)⟩

/-! ## C1 — the scanner's five-step resolution order -/

/-- The five-step resolution order stated by the claim: BUCKET_NOT_FOUND
when the bucket is neither configured nor the default source bucket;
SOURCE_FILE_NOT_FOUND when the source object is absent from the settings'
source bucket; USE_SOURCE_FILE when the request addresses the source bucket
itself; FILE_FOUND when a fresh derivative exists (its parent etag equals
the source etag); CREATE_NEW otherwise.  The inner `none` arm is
unreachable whenever the default source bucket is a key of `buckets`. -/
def scan_resolution_order (m : BucketsMap) (store : Store)
    (bucket object : String) : ScanResult :=
  if dictGet m.buckets bucket = none ∧ bucket ≠ m.source_bucket then
    { status := ScanStatus.BUCKET_NOT_FOUND }
  else
    match dictGet m.buckets bucket with
    | none => { status := ScanStatus.BUCKET_NOT_FOUND }
    | some settings =>
      match get_file_stat store settings.source_bucket object with
      | none => { status := ScanStatus.SOURCE_FILE_NOT_FOUND }
      | some src_stat =>
        if bucket = settings.source_bucket then
          { status := ScanStatus.USE_SOURCE_FILE, source_file_stat := some src_stat }
        else
          match get_file_stat store bucket object with
          | some thumb_stat =>
            if thumb_stat.parent_etag = some src_stat.etag then
              { status := ScanStatus.FILE_FOUND, source_file_stat := some src_stat,
                file_stat := some thumb_stat }
            else
              { status := ScanStatus.CREATE_NEW, source_file_stat := some src_stat,
                bucket_settings := some settings }
          | none =>
            { status := ScanStatus.CREATE_NEW, source_file_stat := some src_stat,
              bucket_settings := some settings }

/-- Claim C1: whenever the default source bucket is a key of `buckets` (as
every map derived by `_get_buckets_map` guarantees), `scan_file` returns
exactly the outcome of the claim's five-step resolution order. -/
theorem scan_file_follows_resolution_order (m : BucketsMap) (store : Store)
    (bucket object : String)
    (h : bucket = m.source_bucket → (dictGet m.buckets bucket).isSome) :
    scan_file m store bucket object =
      Except.ok (scan_resolution_order m store bucket object) := by
  cases hlk : dictGet m.buckets bucket with
  | none =>
    have hb : ¬ bucket = m.source_bucket := by
      intro hb
      have hs := h hb
      rw [hlk] at hs
      simp at hs
    have hset : _get_bucket_settings m bucket = Except.ok none := by
      unfold _get_bucket_settings
      rw [if_neg hb, hlk]
    simp [scan_file, scan_resolution_order, hset, hlk, hb]
  | some settings =>
    have hset : _get_bucket_settings m bucket = Except.ok (some settings) := by
      unfold _get_bucket_settings
      by_cases hb : bucket = m.source_bucket
      · rw [if_pos hb, hlk]
      · rw [if_neg hb, hlk]
    cases hsrc : get_file_stat store settings.source_bucket object with
    | none => simp [scan_file, scan_resolution_order, hset, hlk, hsrc]
    | some src =>
      by_cases hbs : bucket = settings.source_bucket
      · simp [scan_file, scan_resolution_order, hset, hlk, hsrc, if_pos hbs]
      · cases hth : get_file_stat store bucket object with
        | none => simp [scan_file, scan_resolution_order, hset, hlk, hsrc, hbs, hth]
        | some thumb =>
          by_cases hpe : thumb.parent_etag = some src.etag
          · simp [scan_file, scan_resolution_order, hset, hlk, hsrc, hbs, hth, hpe]
          · simp [scan_file, scan_resolution_order, hset, hlk, hsrc, hbs, hth, hpe]

/-- Witness for C1: a stale derivative yields CREATE_NEW on a concrete map
and store. -/
theorem scan_file_follows_resolution_order_witness :
    ("thumb" = "images" →
      (dictGet [("images",
          ({ source_bucket := "images", size := { w := 200, h := 200 } } : BucketSettings)),
        ("thumb",
          ({ source_bucket := "images", size := { w := 100, h := 100 } } : BucketSettings))]
        "thumb").isSome) ∧
    scan_file
        { source_bucket := "images",
          buckets := [("images", { source_bucket := "images", size := { w := 200, h := 200 } }),
                      ("thumb", { source_bucket := "images", size := { w := 100, h := 100 } })],
          all_source_buckets := ["images"], alias_map := [] }
        [("images", "a.png", { size := 4, content_type := "image/png", etag := "E1",
                               parent_etag := none, data := [1, 2, 3, 4] }),
         ("thumb", "a.png", { size := 2, content_type := "image/png", etag := "E2",
                              parent_etag := some "STALE", data := [1, 2] })]
        "thumb" "a.png" =
      Except.ok
        (scan_resolution_order
          { source_bucket := "images",
            buckets := [("images", { source_bucket := "images", size := { w := 200, h := 200 } }),
                        ("thumb", { source_bucket := "images", size := { w := 100, h := 100 } })],
            all_source_buckets := ["images"], alias_map := [] }
          [("images", "a.png", { size := 4, content_type := "image/png", etag := "E1",
                                 parent_etag := none, data := [1, 2, 3, 4] }),
           ("thumb", "a.png", { size := 2, content_type := "image/png", etag := "E2",
                                parent_etag := some "STALE", data := [1, 2] })]
          "thumb" "a.png") :=
  ⟨by decide,
   scan_file_follows_resolution_order _ _ "thumb" "a.png" (by decide)⟩

/-! ## C3 — materialization of a new thumbnail -/

/-- The materialization contract, as amended: 404 when the source cannot be
loaded; 404 with no store change when the resize result carries an error
(or no data); otherwise the store gains the derivative object — carrying
the resized bytes, the backend-assigned etag, and the parent-etag metadata
entry exactly when the source etag is non-empty — and the response is 200
with Etag and Content-Length from the put result and the media type from
the resize result. -/
def create_and_upload_contract (env : ThumbEnv) (store : Store)
    (src : StorageFileItem) (settings : BucketSettings) (bucket : String) :
    Response × Store :=
  match load_file store src.bucket src.file_name with
  | none => (Response.notFoundJson, store)
  | some image_data =>
    let t := env.resize image_data settings.size.w settings.size.h
        settings.format settings.format_args
    match t.error, t.data with
    | some _, _ => (Response.notFoundJson, store)
    | none, none => (Response.notFoundJson, store)
    | none, some bytes =>
      let etag := env.etagOf bytes
      let stored : StorageObject :=
        { size := bytes.length, content_type := t.content_type, etag := etag,
          parent_etag := if src.etag = "" then none else some src.etag,
          data := bytes }
      (Response.okStream etag (toString bytes.length) t.content_type bytes,
       (bucket, src.file_name, stored) :: store)

/-- Claim C3 (corrected): the original claim promises that `parent_etag`
equal to the source etag is persisted as object metadata under
`x-amz-meta-parent-etag` on every successful materialization, but
`put_file` guards the metadata dictionary with Python truthiness
(`if parent_etag:`), so an empty source etag is not persisted: the stored
derivative carries no parent-etag metadata entry at all. -/
theorem create_thumbnail_and_upload_empty_etag_counterexample :
    (({ bucket := "images", file_name := "a.png", size := 1,
        content_type := "image/png", etag := "" } : StorageFileItem).etag = "") ∧
    (_create_thumbnail_and_upload
        { resize := fun _ _ _ _ _ =>
            { content_type := "image/png", error := none, data := some [9] },
          etagOf := fun _ => "E" }
        [("images", "a.png", { size := 1, content_type := "image/png", etag := "",
                               parent_etag := none, data := [1] })]
        { bucket := "images", file_name := "a.png", size := 1,
          content_type := "image/png", etag := "" }
        { source_bucket := "images", size := { w := 100, h := 100 } }
        "thumb").1 = Response.okStream "E" "1" "image/png" [9] ∧
    (lookupStore
        (_create_thumbnail_and_upload
          { resize := fun _ _ _ _ _ =>
              { content_type := "image/png", error := none, data := some [9] },
            etagOf := fun _ => "E" }
          [("images", "a.png", { size := 1, content_type := "image/png", etag := "",
                                 parent_etag := none, data := [1] })]
          { bucket := "images", file_name := "a.png", size := 1,
            content_type := "image/png", etag := "" }
          { source_bucket := "images", size := { w := 100, h := 100 } }
          "thumb").2 "thumb" "a.png").map StorageObject.parent_etag = some none ∧
    (some none : Option (Option String)) ≠ some (some "") :=
  ⟨rfl, rfl, rfl, by decide⟩

/-- Claim C3 (amended): the materialization path implements exactly the
amended contract — 404 on a missing source, 404 without persisting on a
resize error, and otherwise a put of the resized bytes whose parent-etag
metadata records the source etag when it is non-empty, answered by a 200
whose Etag and Content-Length come from the put result and whose media
type comes from the resize result. -/
theorem create_thumbnail_and_upload_follows_contract (env : ThumbEnv)
    (store : Store) (src : StorageFileItem) (settings : BucketSettings)
    (bucket : String) :
    _create_thumbnail_and_upload env store src settings bucket =
      create_and_upload_contract env store src settings bucket := by
  unfold _create_thumbnail_and_upload create_and_upload_contract put_file
  cases hload : load_file store src.bucket src.file_name with
  | none => rfl
  | some image_data =>
    obtain ⟨ct, terr, tdata⟩ : ImageData :=
      env.resize image_data settings.size.w settings.size.h settings.format
        settings.format_args
    cases terr with
    | some e => rfl
    | none =>
      cases tdata with
      | none => rfl
      | some bytes => rfl

/-! ## C10 — the synthetic entry for the default source bucket -/

/-- Any scan addressed to the default source bucket of a derived map ends
in the serve-source path: its settings entry names itself as source, so the
outcome is USE_SOURCE_FILE or SOURCE_FILE_NOT_FOUND, never FILE_FOUND or
CREATE_NEW. -/
theorem scan_of_source_bucket (m : BucketsMap) (cfg : BucketSettings)
    (store : Store) (f : String) (r : ScanResult)
    (hcfg : dictGet m.buckets m.source_bucket = some cfg)
    (hc : cfg.source_bucket = m.source_bucket)
    (hs : scan_file m store m.source_bucket f = Except.ok r) :
    r.status = ScanStatus.USE_SOURCE_FILE ∨
      r.status = ScanStatus.SOURCE_FILE_NOT_FOUND := by
  unfold scan_file _get_bucket_settings at hs
  rw [if_pos rfl, hcfg] at hs
  cases hstat : get_file_stat store cfg.source_bucket f with
  | none =>
    simp only [hstat] at hs
    cases hs
    right
    rfl
  | some src =>
    simp only [hstat] at hs
    rw [hc, if_pos rfl] at hs
    injection hs with h2
    rw [← h2]
    left
    rfl

/-- Claim C10: every map derived by `_get_buckets_map` binds the default
source bucket name to the synthetic settings entry — source_bucket equal to
itself, size equal to the top-level default — overwriting any
user-configured bucket of the same name, and every scan addressed to that
name resolves through the serve-source path, never through thumbnail
materialization. -/
theorem buckets_map_default_source_is_synthetic (settings : AppSettingsSlice)
    (m : BucketsMap) (h : _get_buckets_map settings = some m) :
    dictGet m.buckets m.source_bucket =
      some { source_bucket := m.source_bucket, size := settings.size } ∧
    ∀ (store : Store) (f : String) (r : ScanResult),
      scan_file m store m.source_bucket f = Except.ok r →
      r.status = ScanStatus.USE_SOURCE_FILE ∨
        r.status = ScanStatus.SOURCE_FILE_NOT_FOUND := by
  simp only [_get_buckets_map] at h
  cases hbase : _buckets_map_base settings with
  | none =>
    rw [hbase] at h
    simp at h
  | some base =>
    rw [hbase, Option.some.injEq] at h
    subst h
    refine ⟨dictGet_dictInsert _ _ _, ?_⟩
    intro store f r hs
    exact scan_of_source_bucket _ _ store f r (dictGet_dictInsert _ _ _) rfl hs

/-- Settings with a user-configured bucket named like the default source. -/
def shadowedSourceSettings : AppSettingsSlice :=
  { buckets := [("images", { source_bucket := "pics", size := { w := 50, h := 50 } })],
    source_bucket := some "images", size := { w := 200, h := 200 } }

/-- The map `_get_buckets_map` derives from `shadowedSourceSettings`. -/
def shadowedSourceMap : BucketsMap :=
  { source_bucket := "images",
    buckets := [("images", { source_bucket := "images", size := { w := 200, h := 200 } })],
    all_source_buckets := ["pics"], alias_map := [] }

/-- Witness for C10: a user-configured bucket named like the default source
bucket is replaced by the synthetic serve-source entry. -/
theorem buckets_map_default_source_is_synthetic_witness :
    _get_buckets_map shadowedSourceSettings = some shadowedSourceMap ∧
    dictGet shadowedSourceMap.buckets shadowedSourceMap.source_bucket =
      some { source_bucket := shadowedSourceMap.source_bucket,
             size := shadowedSourceSettings.size } ∧
    (({ status := ScanStatus.SOURCE_FILE_NOT_FOUND } : ScanResult).status =
        ScanStatus.USE_SOURCE_FILE ∨
      ({ status := ScanStatus.SOURCE_FILE_NOT_FOUND } : ScanResult).status =
        ScanStatus.SOURCE_FILE_NOT_FOUND) :=
  ⟨rfl,
   (buckets_map_default_source_is_synthetic shadowedSourceSettings shadowedSourceMap rfl).1,
   (buckets_map_default_source_is_synthetic shadowedSourceSettings shadowedSourceMap rfl).2
     [] "a.png" { status := ScanStatus.SOURCE_FILE_NOT_FOUND } rfl⟩

/-! ## C4 — etag round trip -/

/-- Environment for the C4 counterexample: the resize result and the upload
etag are irrelevant for a serve-source request. -/
def emptyEtagEnv : ThumbEnv :=
  { resize := fun _ _ _ _ _ => { content_type := "", error := some "unused" },
    etagOf := fun _ => "E" }

/-- Map with a single source bucket for the C4 counterexample. -/
def emptyEtagMap : BucketsMap :=
  { source_bucket := "img",
    buckets := [("img", { source_bucket := "img", size := { w := 200, h := 200 } })],
    all_source_buckets := ["img"], alias_map := [] }

/-- A store whose single object carries an empty etag (as `get_file_stat`
produces when the backend reports no etag). -/
def emptyEtagStore : Store :=
  [("img", "a.png", { size := 1, content_type := "image/png", etag := "",
                      parent_etag := none, data := [5] })]

/-- Claim C4 (corrected): the original claim promises a 304 on the repeat
request for any Etag value X; with an empty stored etag the first request
returns 200 with Etag "" and leaves the store unchanged, yet the repeat
request with If-None-Match "" again streams the object with 200 (the
Python guard `if etag and ...` rejects the empty client etag), never 304. -/
theorem etag_round_trip_counterexample :
    get_thumbnail emptyEtagEnv emptyEtagMap emptyEtagStore "img" "a.png" none =
      Except.ok (Response.okStream "" "1" "image/png" [5], emptyEtagStore) ∧
    get_thumbnail emptyEtagEnv emptyEtagMap emptyEtagStore "img" "a.png" (some "") =
      Except.ok (Response.okStream "" "1" "image/png" [5], emptyEtagStore) ∧
    Response.okStream "" "1" "image/png" [5] ≠ Response.notModified "" :=
  ⟨rfl, rfl, by decide⟩

/-- Round trip through a fresh materialization: when the first request took
the CREATE_NEW path and answered 200, the repeat request with the returned
Etag finds the just-written derivative fresh and answers 304. -/
theorem create_new_round_trip (env : ThumbEnv) (m : BucketsMap) (store : Store)
    (bucket f : String) (settings : BucketSettings) (osrc : StorageObject)
    (X cl mt : String) (body : List Nat) (store' : Store)
    (hset : _get_bucket_settings m bucket = Except.ok (some settings))
    (hsrcObj : lookupStore store settings.source_bucket f = some osrc)
    (hsrcNe : osrc.etag ≠ "")
    (hetag : ∀ d, env.etagOf d ≠ "")
    (hbs : ¬ bucket = settings.source_bucket)
    (hscan : scan_file m store bucket f = Except.ok
      { status := ScanStatus.CREATE_NEW,
        source_file_stat := some
          { bucket := settings.source_bucket, file_name := f, size := osrc.size,
            content_type := osrc.content_type, etag := osrc.etag,
            parent_etag := osrc.parent_etag },
        bucket_settings := some settings })
    (h : get_thumbnail env m store bucket f none =
      Except.ok (Response.okStream X cl mt body, store')) :
    get_thumbnail env m store' bucket f (some X) =
      Except.ok (Response.notModified X, store') := by
  simp only [get_thumbnail, hscan] at h
  rcases hres : env.resize osrc.data settings.size.w settings.size.h settings.format
      settings.format_args with ⟨ct, terr, tdata⟩
  simp only [_create_thumbnail_and_upload, load_file, hsrcObj, Option.map_some',
    put_file, hres] at h
  cases terr with
  | some e => simp at h
  | none =>
    cases tdata with
    | none => simp at h
    | some bytes =>
      simp [hsrcNe] at h
      obtain ⟨⟨hX, hcl, hmt, hbody⟩, hst⟩ := h
      subst hX
      subst hcl
      subst hmt
      subst hbody
      subst hst
      simp [get_thumbnail, scan_file, hset, get_file_stat, lookupStore, hbs,
        hsrcObj, _get_file_response, open_stream, hetag bytes]

/-- Claim C4 (amended): provided every etag recorded in the store and every
etag the backend assigns on upload is non-empty (as S3 guarantees), a
`get_thumbnail` without If-None-Match that answers 200 with Etag X is
followed — on the store it returned — by a 304 with the same Etag when
repeated with If-None-Match X. -/
theorem etag_round_trip_on_nonempty_etags (env : ThumbEnv) (m : BucketsMap)
    (store : Store) (bucket f : String)
    (hstore : storeEtagsNonEmpty store = true)
    (hetag : ∀ d, env.etagOf d ≠ "")
    (X cl mt : String) (body : List Nat) (store' : Store)
    (h : get_thumbnail env m store bucket f none =
      Except.ok (Response.okStream X cl mt body, store')) :
    get_thumbnail env m store' bucket f (some X) =
      Except.ok (Response.notModified X, store') := by
  cases hlk : dictGet m.buckets bucket with
  | none =>
    by_cases hb : bucket = m.source_bucket
    · have hset : _get_bucket_settings m bucket = Except.error "KeyError" := by
        unfold _get_bucket_settings
        rw [if_pos hb, hlk]
      simp [get_thumbnail, scan_file, hset] at h
    · have hset : _get_bucket_settings m bucket = Except.ok none := by
        unfold _get_bucket_settings
        rw [if_neg hb, hlk]
      simp [get_thumbnail, scan_file, hset] at h
  | some settings =>
    have hset : _get_bucket_settings m bucket = Except.ok (some settings) := by
      unfold _get_bucket_settings
      by_cases hb : bucket = m.source_bucket
      · rw [if_pos hb, hlk]
      · rw [if_neg hb, hlk]
    cases hsrcObj : lookupStore store settings.source_bucket f with
    | none =>
      simp [get_thumbnail, scan_file, hset, get_file_stat, hsrcObj] at h
    | some osrc =>
      have hsrcNe : osrc.etag ≠ "" :=
        lookupStore_etag_ne store hstore _ _ _ hsrcObj
      by_cases hbs : bucket = settings.source_bucket
      · -- serve-source path: the response streams the source object
        simp [get_thumbnail, scan_file, hset, get_file_stat, hsrcObj,
          if_pos hbs, _get_file_response, open_stream] at h
        obtain ⟨⟨hX, hcl, hmt, hbody⟩, hst⟩ := h
        subst hX
        subst hcl
        subst hmt
        subst hbody
        subst hst
        simp [get_thumbnail, scan_file, hset, get_file_stat, hsrcObj, if_pos hbs,
          _get_file_response, open_stream, hsrcNe]
      · cases hthObj : lookupStore store bucket f with
        | none =>
          refine create_new_round_trip env m store bucket f settings osrc X cl mt
            body store' hset hsrcObj hsrcNe hetag hbs ?_ h
          simp [scan_file, hset, get_file_stat, hsrcObj, hthObj, hbs]
        | some oth =>
          by_cases hpe : oth.parent_etag = some osrc.etag
          · -- fresh derivative: the response streams the derivative
            have hthNe : oth.etag ≠ "" :=
              lookupStore_etag_ne store hstore _ _ _ hthObj
            simp [get_thumbnail, scan_file, hset, get_file_stat, hsrcObj,
              hthObj, hbs, if_pos hpe, _get_file_response, open_stream] at h
            obtain ⟨⟨hX, hcl, hmt, hbody⟩, hst⟩ := h
            subst hX
            subst hcl
            subst hmt
            subst hbody
            subst hst
            simp [get_thumbnail, scan_file, hset, get_file_stat, hsrcObj, hthObj,
              hbs, if_pos hpe, _get_file_response, open_stream, hthNe]
          · refine create_new_round_trip env m store bucket f settings osrc X cl mt
              body store' hset hsrcObj hsrcNe hetag hbs ?_ h
            simp [scan_file, hset, get_file_stat, hsrcObj, hthObj, hbs, hpe]

/-- Environment for the C4 witness: a deterministic resize and upload etag. -/
def roundTripEnv : ThumbEnv :=
  { resize := fun _ _ _ _ _ =>
      { content_type := "image/png", error := none, data := some [1, 2] },
    etagOf := fun _ => "TH" }

/-- Map with one source bucket and one derived bucket for the C4 witness. -/
def roundTripMap : BucketsMap :=
  { source_bucket := "images",
    buckets := [("images", { source_bucket := "images", size := { w := 200, h := 200 } }),
                ("thumb", { source_bucket := "images", size := { w := 100, h := 100 } })],
    all_source_buckets := ["images"], alias_map := [] }

/-- Store holding only the source image for the C4 witness. -/
def roundTripStore : Store :=
  [("images", "a.png", { size := 3, content_type := "image/png", etag := "SRC",
                         parent_etag := none, data := [1, 2, 3] })]

/-- The store after the first request materialized the derivative. -/
def roundTripStoreAfter : Store :=
  ("thumb", "a.png", { size := 2, content_type := "image/png", etag := "TH",
                       parent_etag := some "SRC", data := [1, 2] }) :: roundTripStore

/-- Witness for C4: a concrete miss materializes the derivative with 200 and
Etag "TH", and the repeat request with If-None-Match "TH" yields 304. -/
theorem etag_round_trip_on_nonempty_etags_witness :
    storeEtagsNonEmpty roundTripStore = true ∧
    get_thumbnail roundTripEnv roundTripMap roundTripStore "thumb" "a.png" none =
      Except.ok (Response.okStream "TH" "2" "image/png" [1, 2], roundTripStoreAfter) ∧
    get_thumbnail roundTripEnv roundTripMap roundTripStoreAfter "thumb" "a.png" (some "TH") =
      Except.ok (Response.notModified "TH", roundTripStoreAfter) :=
  ⟨by decide, rfl,
   etag_round_trip_on_nonempty_etags roundTripEnv roundTripMap roundTripStore "thumb"
     "a.png" (by decide) (fun _ => by simp [roundTripEnv]) "TH" "2" "image/png" [1, 2]
     roundTripStoreAfter rfl⟩

end STS
